import Mathlib

/-
  Verification of the wa-cool WhatsApp gateway (src/index.js).

  Shallow embedding conventions:
  * JavaScript numbers are modelled as exact rationals (the constants of the
    source — 40, 0.6, 0.7, 1.2, 1.3, 1.5, 800, 6000, ... — are all exactly
    representable as decimals, and every claim is insensitive to the tiny
    rounding of binary doubles).
  * The process-wide mutable variables (currentQRCode, isAuthenticated,
    clientReady, authenticationAttempts, activeTypingStates) form one record,
    GatewayState; each connection event handler is a function from state to
    state plus its observable side effects (emitted warnings, scheduled
    set-timeouts).
  * setTimeout callbacks registered by scheduleTypingClear are modelled as
    explicit pending-timer records; clearTimeout removes the record.  The
    Map activeTypingStates is an association list in insertion order.
  * External calls on the browser-automation client (getChatById,
    sendStateTyping, sendMessage, ...) can succeed or throw; an ExtEnv of
    Boolean oracles decides which, so the HTTP handlers become pure functions
    of (request, oracle, state).
-/

namespace WaCool

/-- src/index.js line 36: the maximum number of authentication attempts. -/
def MAX_AUTH_ATTEMPTS : Nat := 5

/-- The optional context argument of calculateTypingDuration with the default
values destructured at src/index.js lines 64-68. -/
structure Context where
  message_type : String := "normal"
  complexity : String := "low"
  urgency : String := "normal"
  deriving DecidableEq, Repr

/-- Math.max on two numbers. -/
def jsMax (a b : ℚ) : ℚ := if a ≤ b then b else a

/-- Math.min on two numbers. -/
def jsMin (a b : ℚ) : ℚ := if a ≤ b then a else b

/-- The message_type switch of calculateTypingDuration
(src/index.js lines 70-86). -/
def applyMessageType (mt : String) (duration : ℚ) : ℚ :=
  if mt = "search" ∨ mt = "research" then jsMax 2500 (duration + 1500)
  else if mt = "quick_response" ∨ mt = "confirmation" then jsMin 1200 (duration * 0.6)
  else if mt = "complex_analysis" ∨ mt = "detailed_explanation" then jsMax 3500 (duration + 2000)
  else if mt = "error" then 800
  else duration

/-- The complexity switch of calculateTypingDuration
(src/index.js lines 88-95). -/
def applyComplexity (c : String) (duration : ℚ) : ℚ :=
  if c = "high" then duration * 1.5
  else if c = "medium" then duration * 1.2
  else duration

/-- The urgency switch of calculateTypingDuration
(src/index.js lines 97-105). -/
def applyUrgency (u : String) (duration : ℚ) : ℚ :=
  if u = "high" ∨ u = "urgent" then duration * 0.7
  else if u = "low" then duration * 1.3
  else duration

/-- calculateTypingDuration (src/index.js lines 60-108): base duration
max(1000, text.length * 40), then the three switches in order, then the final
clamp min(6000, max(800, duration)). -/
def calculateTypingDuration (text : String) (context : Context) : ℚ :=
  jsMin 6000 (jsMax 800
    (applyUrgency context.urgency
      (applyComplexity context.complexity
        (applyMessageType context.message_type
          (jsMax 1000 ((text.length : ℚ) * 40))))))

/-- A pending auto-clear setTimeout created by scheduleTypingClear:
its handle (timeoutId), the conversation it will clear, and its delay. -/
structure TypingTimer where
  id : Nat
  chatId : String
  duration : ℚ
  deriving DecidableEq, Repr

/-- The process-wide mutable state of src/index.js (lines 32-39), together
with the bookkeeping needed to model setTimeout: pendingClears is the set of
scheduled-and-not-cancelled auto-clear callbacks, nextTimerId a source of
fresh timeout handles. -/
structure GatewayState where
  currentQRCode : Option String := none
  isAuthenticated : Bool := false
  clientReady : Bool := false
  authenticationAttempts : Nat := 0
  activeTypingStates : List (String × Nat) := []
  pendingClears : List TypingTimer := []
  nextTimerId : Nat := 0
  deriving DecidableEq, Repr

/-- The state at process start. -/
def initialState : GatewayState := {}

/-- Lookup in the activeTypingStates Map. -/
def lookupAssoc : List (String × Nat) → String → Option Nat
  | [], _ => none
  | kv :: rest, k => if kv.1 = k then some kv.2 else lookupAssoc rest k

/-- Map.set: replace the binding of an existing key in place, else append. -/
def insertAssoc : List (String × Nat) → String → Nat → List (String × Nat)
  | [], k, v => [(k, v)]
  | kv :: rest, k, v => if kv.1 = k then (k, v) :: rest else kv :: insertAssoc rest k v

/-- The cancellation prefix of scheduleTypingClear (src/index.js lines 42-44):
if the Map holds a timeoutId for chatId, clearTimeout it. -/
def cancelExisting (s : GatewayState) (chatId : String) : List TypingTimer :=
  match lookupAssoc s.activeTypingStates chatId with
  | some tid => s.pendingClears.filter (fun t => decide (t.id ≠ tid))
  | none => s.pendingClears

/-- scheduleTypingClear (src/index.js lines 41-58): cancel any existing timer
for the chat, create a fresh auto-clear timeout, and record its handle in the
Map. -/
def scheduleTypingClear (chatId : String) (duration : ℚ) (s : GatewayState) :
    GatewayState :=
  { s with
    pendingClears := cancelExisting s chatId ++ [⟨s.nextTimerId, chatId, duration⟩],
    activeTypingStates := insertAssoc s.activeTypingStates chatId s.nextTimerId,
    nextTimerId := s.nextTimerId + 1 }

/-- The pending auto-clear timers of one conversation. -/
def pendingFor (s : GatewayState) (chatId : String) : List TypingTimer :=
  s.pendingClears.filter (fun t => decide (t.chatId = chatId))

/-- Consistency between the timer registry and the pending timeouts: every
pending auto-clear is the one recorded for its chat in the Map, and no two
pending auto-clears serve the same chat.  It holds at startup and is preserved
by scheduleTypingClear. -/
def TimerInv (s : GatewayState) : Prop :=
  (∀ t ∈ s.pendingClears, lookupAssoc s.activeTypingStates t.chatId = some t.id) ∧
  (s.pendingClears.map TypingTimer.chatId).Nodup

/-- A sequence of presence-scheduling calls, applied in order. -/
def runSchedule (calls : List (String × ℚ)) (s : GatewayState) : GatewayState :=
  calls.foldl (fun st cd => scheduleTypingClear cd.1 cd.2 st) s

/-- The qr event handler (src/index.js lines 131-167): increment the attempt
counter, store the QR payload, and return whether the max-attempts diagnostic
block was printed. -/
def onQr (qr : String) (s : GatewayState) : GatewayState × Bool :=
  let s₁ := { s with
    authenticationAttempts := s.authenticationAttempts + 1,
    currentQRCode := some qr }
  (s₁, decide (s₁.authenticationAttempts ≥ MAX_AUTH_ATTEMPTS))

/-- The authenticated event handler (src/index.js lines 173-185). -/
def onAuthenticated (s : GatewayState) : GatewayState :=
  { s with
    isAuthenticated := true,
    authenticationAttempts := 0,
    currentQRCode := none }

/-- The destructive cleanup scheduled by the auth_failure handler: after
delayMs milliseconds, rmSync the session directory and exit the process. -/
structure SessionReset where
  delayMs : Nat
  removesSessionDir : Bool
  exitsProcess : Bool
  deriving DecidableEq, Repr

/-- The auth_failure event handler (src/index.js lines 187-203): flags reset;
when the attempt counter has reached the limit, a 5000 ms timeout deleting the
session directory and exiting the process is scheduled, otherwise nothing. -/
def onAuthFailure (s : GatewayState) : GatewayState × Option SessionReset :=
  let s₁ := { s with isAuthenticated := false, currentQRCode := none }
  if s.authenticationAttempts ≥ MAX_AUTH_ATTEMPTS then
    (s₁, some ⟨5000, true, true⟩)
  else
    (s₁, none)

/-- The ready event handler (src/index.js lines 205-220): set clientReady and
clear the typing-state Map.  Note that it calls Map.clear() only — the pending
timeouts themselves are not cancelled. -/
def onReady (s : GatewayState) : GatewayState :=
  { s with clientReady := true, activeTypingStates := [] }

/-- The disconnected event handler (src/index.js lines 222-238): clear both
flags, clearTimeout every handle recorded in the Map, empty the Map, and
schedule a reconnect; returns the reconnect delay in milliseconds. -/
def onDisconnected (s : GatewayState) : GatewayState × Nat :=
  let cancelledIds := s.activeTypingStates.map Prod.snd
  ({ s with
      clientReady := false,
      isAuthenticated := false,
      pendingClears := s.pendingClears.filter (fun t => decide (t.id ∉ cancelledIds)),
      activeTypingStates := [] },
    10000)

/-- An inbound message as exposed by the connection layer: from, the group
author field (present only for group-chat messages), the own-message flag,
and the payload fields forwarded to the webhook. -/
structure Msg where
  msgFrom : String
  author : Option String := none
  fromMe : Bool := false
  body : String := ""
  messageId : String := ""
  timestamp : Nat := 0
  hasMedia : Bool := false
  msgType : String := "chat"
  deriving DecidableEq, Repr

/-- The JSON payload of one webhook POST (src/index.js lines 246-252). -/
structure WebhookPost where
  postFrom : String
  text : String
  messageId : String
  timestamp : Nat
  hasMedia : Bool
  msgType : String
  deriving DecidableEq, Repr

/-- JavaScript truthiness of an optional string (undefined and "" are falsy). -/
def jsTruthyStr (o : Option String) : Bool :=
  match o with
  | none => false
  | some s => decide (s ≠ "")

/-- JavaScript falsiness of an optional string. -/
def jsFalsyStr (o : Option String) : Bool := ! jsTruthyStr o

/-- The early-return guard of the message handler (src/index.js line 241):
message.from === 'status@broadcast' || message.author. -/
def excludedB (m : Msg) : Bool :=
  decide (m.msgFrom = "status@broadcast") || jsTruthyStr m.author

/-- The webhook payload assembled for a forwarded message. -/
def mkWebhookPayload (m : Msg) : WebhookPost :=
  ⟨m.msgFrom, m.body, m.messageId, m.timestamp, m.hasMedia, m.msgType⟩

/-- The message event handler (src/index.js lines 240-266): the POSTs it
issues to the webhook (one attempt; a failing POST is logged, not retried). -/
def onMessage (m : Msg) : List WebhookPost :=
  if excludedB m then [] else [mkWebhookPayload m]

/-- All webhook POSTs issued for a stream of inbound messages. -/
def onMessageRun (ms : List Msg) : List WebhookPost :=
  (ms.map onMessage).flatten

/-- Processing a list of qr events, collecting the escalation flags. -/
def qrEvents : List String → GatewayState → GatewayState × List Bool
  | [], s => (s, [])
  | q :: rest, s =>
    let p := onQr q s
    let r := qrEvents rest p.1
    (r.1, p.2 :: r.2)

/-- Success oracles for the calls on the external client object; a false
entry means the corresponding await throws. -/
structure ExtEnv where
  getChatOk : String → Bool := fun _ => true
  sendStateOk : String → Bool := fun _ => true
  sendMessageOk : String → Bool := fun _ => true
  getMessageOk : String → Bool := fun _ => true
  getMessageFound : String → Bool := fun _ => true
  fetchMediaOk : String → Bool := fun _ => true

/-- JavaScript a || b for an optional number versus a fallback
(0 is falsy, any other number truthy). -/
def jsNumOr (v : Option ℚ) (fallback : ℚ) : ℚ :=
  match v with
  | some d => if d = 0 then fallback else d
  | none => fallback

/-- The complexity hint the send-message endpoint derives from the text
length (src/index.js line 350). -/
def complexityFor (text : String) : String :=
  if text.length > 200 then "high" else if text.length > 100 then "medium" else "low"

/-- The JSON body of POST /send-message with its defaults
(src/index.js lines 326-334).  The source field named to is rendered toId
because to is a reserved word here. -/
structure SendMessageBody where
  toId : Option String := none
  text : Option String := none
  typing_duration : Option ℚ := none
  enable_typing : Bool := true
  message_delay : ℚ := 0
  message_type : String := "normal"
  urgency : String := "normal"
  deriving DecidableEq, Repr

/-- Outcome of POST /send-message: HTTP status, resulting process state, and
the typing delay awaited before the send (none when the typing block was
skipped or not reached). -/
structure SendMessageResult where
  status : Nat
  state : GatewayState
  typingDelay : Option ℚ
  deriving DecidableEq, Repr

/-- POST /send-message (src/index.js lines 311-389): API-key guard, readiness
guard, required-field guard, then the typing block (compute duration via
typing_duration || calculateTypingDuration, start typing, schedule the
auto-clear, await the delay) and the send. -/
def sendMessagePost (gatewayKey apiKey : String) (body : SendMessageBody)
    (ext : ExtEnv) (s : GatewayState) : SendMessageResult :=
  if apiKey ≠ gatewayKey then ⟨401, s, none⟩
  else if !s.clientReady then ⟨503, s, none⟩
  else if jsFalsyStr body.toId || jsFalsyStr body.text then ⟨400, s, none⟩
  else if body.enable_typing then
    let calculatedDuration := jsNumOr body.typing_duration
      (calculateTypingDuration (body.text.getD "")
        { message_type := body.message_type,
          complexity := complexityFor (body.text.getD ""),
          urgency := body.urgency })
    if !ext.getChatOk (body.toId.getD "") then ⟨500, s, none⟩
    else if !ext.sendStateOk (body.toId.getD "") then ⟨500, s, none⟩
    else
      let s₁ := scheduleTypingClear (body.toId.getD "") calculatedDuration s
      if !ext.sendMessageOk (body.toId.getD "") then ⟨500, s₁, some calculatedDuration⟩
      else ⟨200, s₁, some calculatedDuration⟩
  else if !ext.sendMessageOk (body.toId.getD "") then ⟨500, s, none⟩
  else ⟨200, s, none⟩

/-- The JSON body of POST /send-typing with its defaults
(src/index.js line 405). -/
structure SendTypingBody where
  chatId : Option String := none
  duration : ℚ := 3000
  state : String := "typing"
  deriving DecidableEq, Repr

/-- POST /send-typing (src/index.js lines 392-446): guards, send the typing
or recording state, and schedule the auto-clear when duration > 0. -/
def sendTypingPost (gatewayKey apiKey : String) (body : SendTypingBody)
    (ext : ExtEnv) (s : GatewayState) : Nat × GatewayState :=
  if apiKey ≠ gatewayKey then (401, s)
  else if !s.clientReady then (503, s)
  else if jsFalsyStr body.chatId then (400, s)
  else if !ext.getChatOk (body.chatId.getD "") then (500, s)
  else if !ext.sendStateOk (body.chatId.getD "") then (500, s)
  else if 0 < body.duration then
    (200, scheduleTypingClear (body.chatId.getD "") body.duration s)
  else (200, s)

/-- POST /reply-to-message (src/index.js lines 449-476). -/
def replyToMessagePost (gatewayKey apiKey : String)
    (messageId text : Option String) (ext : ExtEnv) (s : GatewayState) :
    Nat × GatewayState :=
  if apiKey ≠ gatewayKey then (401, s)
  else if !s.clientReady then (503, s)
  else if jsFalsyStr messageId || jsFalsyStr text then (400, s)
  else if !ext.getMessageOk (messageId.getD "") then (500, s)
  else if ext.getMessageFound (messageId.getD "") then
    if ext.sendMessageOk (messageId.getD "") then (200, s) else (500, s)
  else (404, s)

/-- POST /send-image (src/index.js lines 478-501). -/
def sendImagePost (gatewayKey apiKey : String) (toId imageUrl : Option String)
    (ext : ExtEnv) (s : GatewayState) : Nat × GatewayState :=
  if apiKey ≠ gatewayKey then (401, s)
  else if !s.clientReady then (503, s)
  else if jsFalsyStr toId || jsFalsyStr imageUrl then (400, s)
  else if !ext.fetchMediaOk (imageUrl.getD "") then (500, s)
  else if !ext.sendMessageOk (toId.getD "") then (500, s)
  else (200, s)

/-! ## Helper lemmas -/

theorem applyMessageType_error (d : ℚ) : applyMessageType "error" d = 800 := rfl

theorem jsMax_le_left (a b : ℚ) : a ≤ jsMax a b := by
  unfold jsMax
  split
  · assumption
  · exact le_refl a

theorem jsMin_le_left (a b : ℚ) : jsMin a b ≤ a := by
  unfold jsMin
  split
  · exact le_refl a
  · exact le_of_not_le (by assumption)

theorem le_jsMin (a b c : ℚ) (hb : a ≤ b) (hc : a ≤ c) : a ≤ jsMin b c := by
  unfold jsMin
  split
  · exact hb
  · exact hc

/-- The final clamp keeps every duration inside the closed interval
[800, 6000]. -/
theorem calculateTypingDuration_bounds (text : String) (context : Context) :
    800 ≤ calculateTypingDuration text context ∧
      calculateTypingDuration text context ≤ 6000 := by
  unfold calculateTypingDuration
  exact ⟨le_jsMin _ _ _ (by norm_num) (jsMax_le_left _ _), jsMin_le_left _ _⟩

/-! ## C1 -/

/-- C1 counterexample: with messageType = "error" but complexity = "high",
calculateTypingDuration returns 1200, not 800 — the error case is not a
short-circuit past the complexity and urgency multipliers. -/
theorem c1_counterexample :
    calculateTypingDuration ""
        { message_type := "error", complexity := "high", urgency := "normal" } = 1200 ∧
      (1200 : ℚ) ≠ 800 := by
  constructor
  · norm_num [calculateTypingDuration, applyMessageType, applyComplexity,
      applyUrgency, jsMin, jsMax]
    decide
  · norm_num

/-- C1 amended: with messageType = "error" the duration is independent of the
text and equals the [800, 6000]-clamp of 800 scaled by the complexity and
urgency multipliers; it is exactly 800 only when those multipliers do not
push the product above 800 (for example at their default values). -/
theorem c1_error_duration_amended (text : String) (ctx : Context)
    (h : ctx.message_type = "error") :
    calculateTypingDuration text ctx =
      jsMin 6000 (jsMax 800 (applyUrgency ctx.urgency (applyComplexity ctx.complexity 800))) := by
  unfold calculateTypingDuration
  rw [h, applyMessageType_error]

/-- C1 amended, witnessed at text "hello" with complexity "medium",
urgency "low". -/
theorem c1_error_duration_witness :
    calculateTypingDuration "hello"
        { message_type := "error", complexity := "medium", urgency := "low" } =
      jsMin 6000 (jsMax 800 (applyUrgency "low" (applyComplexity "medium" 800))) :=
  c1_error_duration_amended "hello"
    { message_type := "error", complexity := "medium", urgency := "low" } rfl

/-! ## C4 -/

/-- C4: for every text (any length, empty included) and every context (any
messageType, complexity and urgency values, defaults included), the computed
typing duration lies in the closed interval [800, 6000]. -/
theorem c4_duration_clamped (text : String) (ctx : Context) :
    800 ≤ calculateTypingDuration text ctx ∧
      calculateTypingDuration text ctx ≤ 6000 :=
  calculateTypingDuration_bounds text ctx

/-! ## C2 -/

/-- C2 counterexample: firing the ready handler on a state whose
authenticated flag is false (here the initial state) yields ready = true with
authenticated still false — the handler does not set the authenticated flag,
so ready does not imply authenticated regardless of the prior state. -/
theorem c2_counterexample :
    (onReady initialState).clientReady = true ∧
      (onReady initialState).isAuthenticated = false := by
  decide

/-- C2 amended: the ready handler sets ready = true and leaves the
authenticated flag unchanged; hence ready implies authenticated after a ready
event exactly when authenticated already held — in particular it does hold
whenever an authenticated event preceded the ready event, as in the normal
connection flow. -/
theorem c2_ready_flags_amended (s : GatewayState) :
    (onReady s).clientReady = true ∧
      (onReady s).isAuthenticated = s.isAuthenticated ∧
      (onReady (onAuthenticated s)).clientReady = true ∧
      (onReady (onAuthenticated s)).isAuthenticated = true :=
  ⟨rfl, rfl, rfl, rfl⟩

/-! ## C5 -/

/-- C5: from the initial state (attempt count 0, limit 5), five consecutive
qr events produce the escalation trace [false, false, false, false, true] —
the diagnostic fires exactly once, on the fifth challenge and on no earlier
one — the counter ends at 5, and every single qr event increments the attempt
counter by exactly one. -/
theorem c5_qr_escalation :
    (qrEvents ["q1", "q2", "q3", "q4", "q5"] initialState).2 =
        [false, false, false, false, true] ∧
      (qrEvents ["q1", "q2", "q3", "q4", "q5"] initialState).1.authenticationAttempts = 5 ∧
      ∀ (q : String) (s : GatewayState),
        (onQr q s).1.authenticationAttempts = s.authenticationAttempts + 1 :=
  ⟨by decide, by decide, fun _ _ => rfl⟩

/-! ## C6 -/

/-- C6: the auth_failure handler schedules the destructive session reset
(session-directory deletion plus process exit) after exactly 5000 ms when the
attempt counter has reached MAX_AUTH_ATTEMPTS, and schedules nothing at all
when the counter is below the limit. -/
theorem c6_auth_failure_reset (s : GatewayState) :
    (MAX_AUTH_ATTEMPTS ≤ s.authenticationAttempts →
        (onAuthFailure s).2 = some ⟨5000, true, true⟩) ∧
      (s.authenticationAttempts < MAX_AUTH_ATTEMPTS →
        (onAuthFailure s).2 = none) := by
  constructor
  · intro h
    simp only [onAuthFailure, ge_iff_le, if_pos h]
  · intro h
    simp only [onAuthFailure, ge_iff_le, if_neg (not_le.mpr h)]

/-- C6 witnessed at attempt counts 5 (reset scheduled) and 0 (nothing
scheduled). -/
theorem c6_auth_failure_witness :
    (onAuthFailure { initialState with authenticationAttempts := 5 }).2 =
        some ⟨5000, true, true⟩ ∧
      (onAuthFailure initialState).2 = none :=
  ⟨(c6_auth_failure_reset { initialState with authenticationAttempts := 5 }).1 (by decide),
    (c6_auth_failure_reset initialState).2 (by decide)⟩

/-! ## Timer-registry lemmas -/

theorem lookupAssoc_mem_sndMap {m : List (String × Nat)} {k : String} {v : Nat}
    (h : lookupAssoc m k = some v) : v ∈ m.map Prod.snd := by
  induction m with
  | nil => exact Option.noConfusion h
  | cons kv rest ih =>
    by_cases hk : kv.1 = k
    · rw [lookupAssoc, if_pos hk] at h
      obtain rfl := Option.some.inj h
      simp
    · rw [lookupAssoc, if_neg hk] at h
      simp only [List.map_cons, List.mem_cons]
      exact Or.inr (ih h)

theorem lookupAssoc_insertAssoc_self (m : List (String × Nat)) (k : String) (v : Nat) :
    lookupAssoc (insertAssoc m k v) k = some v := by
  induction m with
  | nil => simp [insertAssoc, lookupAssoc]
  | cons kv rest ih =>
    by_cases hk : kv.1 = k
    · simp [insertAssoc, hk, lookupAssoc]
    · simp [insertAssoc, hk, lookupAssoc, ih]

theorem lookupAssoc_insertAssoc_ne (m : List (String × Nat)) (k k₂ : String) (v : Nat)
    (h : k₂ ≠ k) :
    lookupAssoc (insertAssoc m k v) k₂ = lookupAssoc m k₂ := by
  induction m with
  | nil => simp [insertAssoc, lookupAssoc, Ne.symm h]
  | cons kv rest ih =>
    by_cases hk : kv.1 = k
    · have hne : kv.1 ≠ k₂ := by rw [hk]; exact Ne.symm h
      simp [insertAssoc, hk, lookupAssoc, Ne.symm h, hne]
    · simp [insertAssoc, hk, lookupAssoc, ih]

theorem cancelExisting_sublist (s : GatewayState) (c : String) :
    List.Sublist (cancelExisting s c) s.pendingClears := by
  unfold cancelExisting
  split
  · exact List.filter_sublist _
  · exact List.Sublist.refl _

/-- After the cancellation prefix of scheduleTypingClear, no pending timer is
left for the conversation — provided the registry was consistent. -/
theorem cancelExisting_chatId_ne (s : GatewayState) (c : String)
    (h1 : ∀ t ∈ s.pendingClears, lookupAssoc s.activeTypingStates t.chatId = some t.id) :
    ∀ t ∈ cancelExisting s c, t.chatId ≠ c := by
  intro t ht hc
  unfold cancelExisting at ht
  split at ht
  · rename_i tid hl
    obtain ⟨hmem, hdec⟩ := List.mem_filter.mp ht
    have hne : t.id ≠ tid := of_decide_eq_true hdec
    have hlk := h1 t hmem
    rw [hc, hl] at hlk
    exact hne (Option.some.inj hlk).symm
  · rename_i hl
    have hlk := h1 t ht
    rw [hc, hl] at hlk
    exact Option.noConfusion hlk

/-- The registry invariant holds at process start. -/
theorem timerInv_initialState : TimerInv initialState :=
  ⟨fun t ht => absurd ht (List.not_mem_nil t), List.nodup_nil⟩

/-- scheduleTypingClear preserves the registry invariant. -/
theorem timerInv_schedule (c : String) (d : ℚ) (s : GatewayState) (h : TimerInv s) :
    TimerInv (scheduleTypingClear c d s) := by
  obtain ⟨h1, h2⟩ := h
  constructor
  · intro t ht
    replace ht : t ∈ cancelExisting s c ++ [(⟨s.nextTimerId, c, d⟩ : TypingTimer)] := ht
    rw [List.mem_append, List.mem_singleton] at ht
    rcases ht with ht | rfl
    · have hcne := cancelExisting_chatId_ne s c h1 t ht
      have hmem := (cancelExisting_sublist s c).subset ht
      show lookupAssoc (insertAssoc s.activeTypingStates c s.nextTimerId) t.chatId = some t.id
      rw [lookupAssoc_insertAssoc_ne _ _ _ _ hcne]
      exact h1 t hmem
    · exact lookupAssoc_insertAssoc_self _ _ _
  · show ((cancelExisting s c ++ [(⟨s.nextTimerId, c, d⟩ : TypingTimer)]).map
        TypingTimer.chatId).Nodup
    rw [List.map_append, List.nodup_append]
    refine ⟨h2.sublist ((cancelExisting_sublist s c).map _), List.nodup_singleton _, ?_⟩
    intro a ha
    simp only [List.mem_map] at ha
    obtain ⟨t, ht, rfl⟩ := ha
    simp only [List.map_cons, List.map_nil, List.mem_singleton]
    exact cancelExisting_chatId_ne s c h1 t ht

/-- Right after scheduleTypingClear, the only pending timer of the scheduled
conversation is the fresh one. -/
theorem pendingFor_schedule_self (s : GatewayState) (c : String) (d : ℚ)
    (h1 : ∀ t ∈ s.pendingClears, lookupAssoc s.activeTypingStates t.chatId = some t.id) :
    pendingFor (scheduleTypingClear c d s) c = [⟨s.nextTimerId, c, d⟩] := by
  show (cancelExisting s c ++ [(⟨s.nextTimerId, c, d⟩ : TypingTimer)]).filter
      (fun t => decide (t.chatId = c)) = _
  rw [List.filter_append]
  have hnil : (cancelExisting s c).filter (fun t => decide (t.chatId = c)) = [] := by
    rw [List.filter_eq_nil_iff]
    intro t ht
    simpa using cancelExisting_chatId_ne s c h1 t ht
  rw [hnil]
  simp

/-- In a list of timers whose conversations are pairwise distinct, at most one
timer serves any given conversation. -/
theorem filter_chatId_length_le (l : List TypingTimer) (c : String)
    (h : (l.map TypingTimer.chatId).Nodup) :
    (l.filter (fun t => decide (t.chatId = c))).length ≤ 1 := by
  induction l with
  | nil => simp
  | cons a tl ih =>
    simp only [List.map_cons, List.nodup_cons] at h
    obtain ⟨ha, htl⟩ := h
    by_cases hc : a.chatId = c
    · have hnil : tl.filter (fun t => decide (t.chatId = c)) = [] := by
        rw [List.filter_eq_nil_iff]
        intro t ht hdec
        have htc : t.chatId = c := of_decide_eq_true hdec
        apply ha
        rw [hc, ← htc]
        exact List.mem_map.mpr ⟨t, ht, rfl⟩
      simp [List.filter_cons, hc, hnil]
    · simp only [List.filter_cons, hc, decide_False, if_false]
      exact ih htl

/-- Every sequence of scheduling calls preserves the registry invariant. -/
theorem timerInv_runSchedule (calls : List (String × ℚ)) (s : GatewayState)
    (h : TimerInv s) : TimerInv (runSchedule calls s) := by
  induction calls generalizing s with
  | nil => exact h
  | cons hd tl ih => exact ih _ (timerInv_schedule hd.1 hd.2 s h)

/-! ## C3 -/

/-- C3: after any sequence of presence-scheduling calls from startup, at most
one auto-clear timer is pending per conversation; and two back-to-back calls
for the same conversation from any registry-consistent state leave exactly
one pending timer for it — the one created by the second call (last-write-
wins, the first call's timer having been cancelled). -/
theorem c3_presence_last_write_wins :
    (∀ (calls : List (String × ℚ)) (c : String),
        (pendingFor (runSchedule calls initialState) c).length ≤ 1) ∧
      (∀ (s : GatewayState) (c : String) (d₁ d₂ : ℚ), TimerInv s →
        pendingFor (scheduleTypingClear c d₂ (scheduleTypingClear c d₁ s)) c =
          [⟨(scheduleTypingClear c d₁ s).nextTimerId, c, d₂⟩]) := by
  constructor
  · intro calls c
    exact filter_chatId_length_le _ c
      (timerInv_runSchedule calls initialState timerInv_initialState).2
  · intro s c d₁ d₂ hinv
    exact pendingFor_schedule_self _ c d₂ (timerInv_schedule c d₁ s hinv).1

/-- C3 witnessed by two scheduling calls for the same conversation from the
initial state: exactly the second call's timer remains pending. -/
theorem c3_presence_witness :
    pendingFor (scheduleTypingClear "123@c.us" 2000
        (scheduleTypingClear "123@c.us" 1000 initialState)) "123@c.us" =
      [⟨(scheduleTypingClear "123@c.us" 1000 initialState).nextTimerId, "123@c.us", 2000⟩] :=
  c3_presence_last_write_wins.2 initialState "123@c.us" 1000 2000 timerInv_initialState

/-! ## C8 -/

/-- C8 counterexample: a reachable state holding one pending presence timer
whose registry entry was dropped by the ready handler (Map.clear without
clearTimeout).  The disconnected handler then cancels nothing, so a pending
auto-clear survives the disconnect, contrary to the claim that from any state
every pending presence timer is cancelled. -/
theorem c8_counterexample :
    (onReady (scheduleTypingClear "alpha@c.us" 1000 initialState)).pendingClears.length = 1 ∧
      (onDisconnected (onReady
        (scheduleTypingClear "alpha@c.us" 1000 initialState))).1.pendingClears ≠ [] := by
  decide

/-- C8 amended: on the disconnected event both flags clear, the registry is
emptied, and a reconnect is scheduled after exactly 10000 ms; every pending
auto-clear timer is cancelled provided the registry is consistent (every
pending timer still registered) — timers orphaned by a ready event's bulk
Map.clear are not cancelled. -/
theorem c8_disconnected_amended (s : GatewayState) (h : TimerInv s) :
    (onDisconnected s).1.clientReady = false ∧
      (onDisconnected s).1.isAuthenticated = false ∧
      (onDisconnected s).1.activeTypingStates = [] ∧
      (onDisconnected s).1.pendingClears = [] ∧
      (onDisconnected s).2 = 10000 := by
  refine ⟨rfl, rfl, rfl, ?_, rfl⟩
  show s.pendingClears.filter
      (fun t => decide (t.id ∉ s.activeTypingStates.map Prod.snd)) = []
  rw [List.filter_eq_nil_iff]
  intro t ht
  simp only [decide_eq_true_eq, not_not]
  exact lookupAssoc_mem_sndMap (h.1 t ht)

/-- C8 witnessed at a consistent state with two pending presence timers:
after the disconnected event no timer and no registry entry survives and the
reconnect delay is 10000 ms. -/
theorem c8_disconnected_witness :
    (onDisconnected (scheduleTypingClear "b@c.us" 2000
        (scheduleTypingClear "a@c.us" 1000 initialState))).1.clientReady = false ∧
      (onDisconnected (scheduleTypingClear "b@c.us" 2000
        (scheduleTypingClear "a@c.us" 1000 initialState))).1.isAuthenticated = false ∧
      (onDisconnected (scheduleTypingClear "b@c.us" 2000
        (scheduleTypingClear "a@c.us" 1000 initialState))).1.activeTypingStates = [] ∧
      (onDisconnected (scheduleTypingClear "b@c.us" 2000
        (scheduleTypingClear "a@c.us" 1000 initialState))).1.pendingClears = [] ∧
      (onDisconnected (scheduleTypingClear "b@c.us" 2000
        (scheduleTypingClear "a@c.us" 1000 initialState))).2 = 10000 :=
  c8_disconnected_amended _
    (timerInv_schedule "b@c.us" 2000 _
      (timerInv_schedule "a@c.us" 1000 initialState timerInv_initialState))

/-! ## C7 -/

/-- C7: with a valid API key, every send operation — send text, send
typing/recording, reply, send image — fails with HTTP 503 while the readiness
flag is false, and returns the process state (in particular the presence-timer
registry) completely unchanged: no auto-clear timer is scheduled by the
failed call. -/
theorem c7_not_ready_rejects (gatewayKey : String) (bodyM : SendMessageBody)
    (bodyT : SendTypingBody) (messageId text toId imageUrl : Option String)
    (ext : ExtEnv) (s : GatewayState) (h : s.clientReady = false) :
    sendMessagePost gatewayKey gatewayKey bodyM ext s = ⟨503, s, none⟩ ∧
      sendTypingPost gatewayKey gatewayKey bodyT ext s = (503, s) ∧
      replyToMessagePost gatewayKey gatewayKey messageId text ext s = (503, s) ∧
      sendImagePost gatewayKey gatewayKey toId imageUrl ext s = (503, s) := by
  refine ⟨?_, ?_, ?_, ?_⟩ <;>
    simp [sendMessagePost, sendTypingPost, replyToMessagePost, sendImagePost, h]

/-- C7 witnessed at the not-ready initial state with concrete requests for
all four send operations. -/
theorem c7_not_ready_witness :
    sendMessagePost "k" "k" { toId := some "x@c.us", text := some "yo" } {} initialState =
        ⟨503, initialState, none⟩ ∧
      sendTypingPost "k" "k" { chatId := some "x@c.us" } {} initialState =
        (503, initialState) ∧
      replyToMessagePost "k" "k" (some "mid") (some "yo") {} initialState =
        (503, initialState) ∧
      sendImagePost "k" "k" (some "x@c.us") (some "img.example") {} initialState =
        (503, initialState) :=
  c7_not_ready_rejects "k" { toId := some "x@c.us", text := some "yo" }
    { chatId := some "x@c.us" } (some "mid") (some "yo") (some "x@c.us")
    (some "img.example") {} initialState rfl

/-! ## C9 -/

/-- C9 counterexample: a group-chat message from another participant — author
field present, fromMe = false, not from status@broadcast — is dropped by the
handler (no webhook POST), although the claim excludes only broadcast-status
and self-authored messages. -/
theorem c9_counterexample :
    onMessage { msgFrom := "123@g.us", author := some "456@c.us",
                fromMe := false, body := "hallo" } = [] ∧
      ({ msgFrom := "123@g.us", author := some "456@c.us",
         fromMe := false, body := "hallo" } : Msg).msgFrom ≠ "status@broadcast" ∧
      ({ msgFrom := "123@g.us", author := some "456@c.us",
         fromMe := false, body := "hallo" } : Msg).fromMe = false := by
  decide

/-- C9 amended: the handler issues exactly one webhook POST per inbound
message unless the message is excluded, and the excluded messages are exactly
those from status@broadcast together with those carrying a truthy author
field (group-chat messages); the self-authored flag fromMe is never
consulted.  The POSTs issued for a stream are precisely the payloads of its
non-excluded messages, in order. -/
theorem c9_webhook_amended :
    (∀ ms : List Msg, onMessageRun ms =
        (ms.filter (fun m => !excludedB m)).map mkWebhookPayload) ∧
      (∀ m : Msg, excludedB m = false → onMessage m = [mkWebhookPayload m]) ∧
      (∀ m : Msg, excludedB m = true → onMessage m = []) := by
  refine ⟨?_, ?_, ?_⟩
  · intro ms
    induction ms with
    | nil => rfl
    | cons m tl ih =>
      show onMessage m ++ onMessageRun tl = _
      rw [List.filter_cons]
      cases hm : excludedB m
      · simp [onMessage, hm, ih]
      · simp [onMessage, hm, ih]
  · intro m hm
    simp [onMessage, hm]
  · intro m hm
    simp [onMessage, hm]

/-- C9 amended, witnessed on a plain direct message (forwarded with its
payload) and on a broadcast-status message (dropped). -/
theorem c9_webhook_witness :
    onMessage { msgFrom := "31612345678@c.us", author := none, fromMe := false,
                body := "hoi", messageId := "m2", timestamp := 5, hasMedia := false,
                msgType := "chat" } =
      [mkWebhookPayload { msgFrom := "31612345678@c.us", author := none,
                          fromMe := false, body := "hoi", messageId := "m2",
                          timestamp := 5, hasMedia := false, msgType := "chat" }] ∧
      onMessage { msgFrom := "status@broadcast" } = [] :=
  ⟨c9_webhook_amended.2.1 _ (by decide), c9_webhook_amended.2.2 _ (by decide)⟩

/-! ## C10 -/

/-- C10: in send-text with typing enabled and an explicit typing_duration of
0, the delay awaited before the send is not zero: the falsy 0 is replaced by
the computed typing duration, which is at least 800 ms. -/
theorem c10_zero_typing_duration (gatewayKey : String) (body : SendMessageBody)
    (ext : ExtEnv) (s : GatewayState)
    (hready : s.clientReady = true)
    (htyping : body.enable_typing = true)
    (hzero : body.typing_duration = some 0)
    (hto : jsFalsyStr body.toId = false)
    (htext : jsFalsyStr body.text = false)
    (hchat : ext.getChatOk (body.toId.getD "") = true)
    (hstate : ext.sendStateOk (body.toId.getD "") = true) :
    (sendMessagePost gatewayKey gatewayKey body ext s).typingDelay =
        some (calculateTypingDuration (body.text.getD "")
          { message_type := body.message_type,
            complexity := complexityFor (body.text.getD ""),
            urgency := body.urgency }) ∧
      ∀ d : ℚ,
        (sendMessagePost gatewayKey gatewayKey body ext s).typingDelay = some d →
          800 ≤ d := by
  have h1 : (sendMessagePost gatewayKey gatewayKey body ext s).typingDelay =
      some (calculateTypingDuration (body.text.getD "")
        { message_type := body.message_type,
          complexity := complexityFor (body.text.getD ""),
          urgency := body.urgency }) := by
    cases hsm : ext.sendMessageOk (body.toId.getD "") <;>
      simp [sendMessagePost, hready, htyping, hzero, hto, htext, hchat, hstate,
        hsm, jsNumOr]
  refine ⟨h1, ?_⟩
  intro d hd
  rw [h1] at hd
  obtain rfl := Option.some.inj hd
  exact (calculateTypingDuration_bounds _ _).1

/-- C10 witnessed on a concrete ready state and request with
typing_duration = 0. -/
theorem c10_zero_typing_witness :
    (sendMessagePost "k" "k"
          { toId := some "x@c.us", text := some "hi", typing_duration := some 0 }
          {} { initialState with clientReady := true }).typingDelay =
        some (calculateTypingDuration "hi"
          { message_type := "normal", complexity := complexityFor "hi",
            urgency := "normal" }) ∧
      ∀ d : ℚ,
        (sendMessagePost "k" "k"
            { toId := some "x@c.us", text := some "hi", typing_duration := some 0 }
            {} { initialState with clientReady := true }).typingDelay = some d →
          800 ≤ d :=
  c10_zero_typing_duration "k"
    { toId := some "x@c.us", text := some "hi", typing_duration := some 0 }
    {} { initialState with clientReady := true } rfl rfl rfl (by decide) (by decide)
    rfl rfl

end WaCool
